import Mathlib

/-!
# Verification of the YouTube metadata ingestion engine (`youtube.py`)

Shallow embedding of the incremental ingestion engine of `youtube.py`:
work-set resolution (the Athena SELECT queries), the per-identifier
credential-rotation fetch loop, record normalization, batch accumulation,
and the commit step (storage-key naming and post-commit schema
registration), for the two flows `collect_video_snippets` and
`collect_channel_stats`.

Rendered text (timestamps, storage keys) is modelled as `List Char`.
Identifiers (video ids, channel ids) are `String`.
-/

/-- The character for a single decimal digit `n < 10` (`'0'` has code 48).
Used to model the zero-padded fields of Python's `strftime` and the decimal
rendering of `str`/`format`. -/
def digitChar (n : Nat) : Char := Char.ofNat (48 + n)

/-- Two-digit zero-padded decimal field (`strftime` `%m`, `%d`, `%H`, `%M`, `%S`).
Faithful for the field values `datetime.utcnow()` can produce (`n < 100`). -/
def pad2 (n : Nat) : List Char := [digitChar (n / 10 % 10), digitChar (n % 10)]

/-- Four-digit zero-padded decimal field (`strftime` `%Y`), faithful for `n < 10000`. -/
def pad4 (n : Nat) : List Char :=
  [digitChar (n / 1000 % 10), digitChar (n / 100 % 10), digitChar (n / 10 % 10),
   digitChar (n % 10)]

/-- Six-digit zero-padded decimal field (`strftime` `%f`, microseconds). -/
def pad6 (n : Nat) : List Char :=
  [digitChar (n / 100000 % 10), digitChar (n / 10000 % 10), digitChar (n / 1000 % 10),
   digitChar (n / 100 % 10), digitChar (n / 10 % 10), digitChar (n % 10)]

/-- A UTC wall-clock instant as produced by `datetime.utcnow()`, broken into
the fields that the two `strftime` calls in `youtube.py` consume. -/
structure Timestamp where
  year : Nat
  month : Nat
  day : Nat
  hour : Nat
  minute : Nat
  second : Nat
  micro : Nat
deriving DecidableEq

/-- `datetime.utcnow().strftime("%Y-%m-%d %H:%M:%S.%f")` (lines 176 and 241). -/
def strftimeMicro (t : Timestamp) : List Char :=
  pad4 t.year ++ '-' :: pad2 t.month ++ '-' :: pad2 t.day ++ ' ' :: pad2 t.hour ++
    ':' :: pad2 t.minute ++ ':' :: pad2 t.second ++ '.' :: pad6 t.micro

/-- Python's `s[:-3]`: all but the last three characters. -/
def pyTruncLast3 (l : List Char) : List Char := l.take (l.length - 3)

/-- The `retrieved_at` value: `strftime("%Y-%m-%d %H:%M:%S.%f")[:-3]`
(microseconds truncated to milliseconds), lines 176 and 241. -/
def formatRetrievedAt (t : Timestamp) : List Char := pyTruncLast3 (strftimeMicro t)

/-- `datetime.utcnow().strftime("%Y-%m-%d")` (lines 183 and 248), the date
component of the storage keys. -/
def strftimeDate (t : Timestamp) : List Char :=
  pad4 t.year ++ '-' :: pad2 t.month ++ '-' :: pad2 t.day

/-- Python's `str.rstrip(z)` for the single strip character `z`: remove every
trailing occurrence of `z`. -/
def pyRstrip (z : Char) (l : List Char) : List Char :=
  (l.reverse.dropWhile (fun c => c == z)).reverse

/-- Python's `str.replace(a, b)` for single characters: replace every
occurrence of `a` by `b`. -/
def pyReplace (a b : Char) (l : List Char) : List Char :=
  l.map (fun c => if c == a then b else c)

/-- Line 175: `item['snippet']['publishedAt'].rstrip('Z').replace('T', ' ')`. -/
def normalizePublishedAt (l : List Char) : List Char :=
  pyReplace 'T' ' ' (pyRstrip 'Z' l)

/-- A raw snippet entity from `youtube.videos().list(part="snippet", ...)`:
its `snippet.publishedAt` string plus the rest of the payload, which the code
never inspects, kept opaque. -/
structure SnippetItem where
  publishedAt : List Char
  payload : List Char
deriving DecidableEq

/-- A normalized video-snippet record as written to the batch file
(lines 174-177): payload with `publishedAt` rewritten and `retrieved_at` added. -/
structure SnippetRecord where
  publishedAt : List Char
  payload : List Char
  retrieved_at : List Char
deriving DecidableEq

/-- Normalization of one snippet entity (lines 175-176). -/
def normalizeSnippet (now : Timestamp) (it : SnippetItem) : SnippetRecord :=
  { publishedAt := normalizePublishedAt it.publishedAt
    payload := it.payload
    retrieved_at := formatRetrievedAt now }

/-- A raw channel entity from `youtube.channels().list(part="statistics", ...)`;
the code never inspects its fields, so the payload is opaque. -/
structure ChannelItem where
  payload : List Char
deriving DecidableEq

/-- A normalized channel-stats record as written to the batch file
(lines 240-242): payload with `retrieved_at` added. -/
structure ChannelRecord where
  payload : List Char
  retrieved_at : List Char
deriving DecidableEq

/-- Normalization of one channel entity (line 241). -/
def normalizeChannel (now : Timestamp) (it : ChannelItem) : ChannelRecord :=
  { payload := it.payload, retrieved_at := formatRetrievedAt now }

/-- Outcome of one call to `youtube...list(...).execute()` with a given
credential: either a response value, or a raised `HttpError` carrying its
string rendering `str(e)` (the only thing the handler inspects). -/
inductive Outcome (α : Type) where
  | ok (r : α)
  | httpError (msg : List Char)
deriving DecidableEq

/-- Error with which the fetch loop can abort: a re-raised `HttpError`
(either a non-403 error, or the last 403 once the pool is exhausted), or the
`TypeError` that Python raises when a list is subscripted with a string. -/
inductive FetchErr where
  | httpError (msg : List Char)
  | typeError
deriving DecidableEq

instance {ε α : Type} [DecidableEq ε] [DecidableEq α] : DecidableEq (Except ε α) := fun a b =>
  match a, b with
  | .ok x, .ok y =>
    if h : x = y then .isTrue (by rw [h]) else .isFalse (by intro hc; cases hc; exact h rfl)
  | .error x, .error y =>
    if h : x = y then .isTrue (by rw [h]) else .isFalse (by intro hc; cases hc; exact h rfl)
  | .ok _, .error _ => .isFalse (by intro hc; cases hc)
  | .error _, .ok _ => .isFalse (by intro hc; cases hc)

/-- `pat` occurs at the start of the list (helper for `containsSeq`). -/
def beginsWith : List Char → List Char → Bool
  | [], _ => true
  | _ :: _, [] => false
  | p :: ps, c :: cs => (p == c) && beginsWith ps cs

/-- Python's `pat in s` substring test. -/
def containsSeq (pat : List Char) : List Char → Bool
  | [] => beginsWith pat []
  | c :: cs => beginsWith pat (c :: cs) || containsSeq pat cs

/-- Line 158 / line 224: `"403" in str(e)` — the quota/authorization test. -/
def has403 (msg : List Char) : Bool := containsSeq ['4', '0', '3'] msg

/-- What one run of the per-identifier `while no_response` loop produces:
the response (or the raised error), the value of `current_key` after the
loop, and the number of `execute()` calls the loop performed. -/
structure FetchRes (α : Type) where
  result : Except FetchErr α
  finalKey : Nat
  calls : Nat
deriving DecidableEq

/-- The `while no_response` loop of `collect_video_snippets` (lines 152-173),
viewed from credential index `k` with `rem = numCreds - k` credentials left
(pool size minus current index); the recursion on `rem` mirrors the loop's
progress of `current_key` toward `len(self.credentials)`.  On a 403 error the
code increments `current_key` and re-raises if `current_key >= len(credentials)`
(that is, if `rem ≤ 1`), otherwise retries the same identifier with the next
credential; any other `HttpError` is re-raised at once. -/
def fetchFrom {α : Type} (api : Nat → Outcome α) : Nat → Nat → FetchRes α
  | k, rem =>
    match api k with
    | .ok r => ⟨.ok r, k, 1⟩
    | .httpError msg =>
      if has403 msg then
        match rem with
        | 0 => ⟨.error (.httpError msg), k + 1, 1⟩
        | rem1 + 1 =>
          if rem1 = 0 then ⟨.error (.httpError msg), k + 1, 1⟩
          else
            let fr := fetchFrom api (k + 1) rem1
            ⟨fr.result, fr.finalKey, fr.calls + 1⟩
      else ⟨.error (.httpError msg), k, 1⟩

/-- The video-snippet fetch loop for a pool of `numCreds` credentials,
entered at `current_key = k`. -/
def fetchLoopSnippet {α : Type} (api : Nat → Outcome α) (numCreds k : Nat) : FetchRes α :=
  fetchFrom api k (numCreds - k)

/-- The `while no_response` loop of `collect_channel_stats` (lines 218-239).
Identical to the snippet loop except for line 229: the exhaustion test is
`current_key >= len(self.credentials['youtube'])`, and `self.credentials` is a
list (it is indexed by the integer `current_key` on lines 206 and 227), so
subscripting it with the string key raises `TypeError` before any comparison:
every 403 aborts the loop with `TypeError` after `current_key` was already
incremented. -/
def channelFetchOnce {α : Type} (api : Nat → Outcome α) (k : Nat) : FetchRes α :=
  match api k with
  | .ok r => ⟨.ok r, k, 1⟩
  | .httpError msg =>
    if has403 msg then ⟨.error FetchErr.typeError, k + 1, 1⟩
    else ⟨.error (.httpError msg), k, 1⟩

/-- Decimal digits of `n`, most significant first, exactly the characters
Python's `str(n)` / `"{}".format(n)` produces.  `fuel`-structured recursion
(`fuel > n` suffices since a number has at most `n + 1` digits). -/
def decDigitsAux : Nat → Nat → List Char
  | 0, _ => []
  | fuel + 1, n =>
    if n < 10 then [digitChar n] else decDigitsAux fuel (n / 10) ++ [digitChar (n % 10)]

/-- `str(n)` as a character list. -/
def decDigits (n : Nat) : List Char := decDigitsAux (n + 1) n

/-- Line 183: `"youtube_video_snippet/{}-{}.json.bz2".format(date, num_videos)`. -/
def videoKeyL (d : List Char) (n : Nat) : List Char :=
  "youtube_video_snippet/".toList ++ (d ++ ('-' :: (decDigits n ++ ".json.bz2".toList)))

/-- Lines 248-249:
`"youtube_channel_stats/creation_date={}/{}.json.bz2".format(date, num_channels)`. -/
def channelKeyL (d : List Char) (n : Nat) : List Char :=
  "youtube_channel_stats/creation_date=".toList ++
    (d ++ ('/' :: (decDigits n ++ ".json.bz2".toList)))

/-- The Athena statements issued after the upload. -/
inductive QueryKind where
  /-- Line 188: `CREATE_VIDEO_SNIPPET_JSON`, a
  `create external table if not exists youtube_video_snippet ...` statement. -/
  | createVideoSnippetIfAbsent
  /-- Line 254: `DROP TABLE IF EXISTS youtube_channel_stats`. -/
  | dropChannelStats
  /-- Line 255: `CREATE_CHANNEL_STATS_JSON`, a
  `create external table if not exists youtube_channel_stats ... PARTITIONED BY
  (creation_date String) ...` statement. -/
  | createChannelStatsIfAbsent
  /-- Line 256: `MSCK REPAIR TABLE youtube_channel_stats`, the refresh of the
  partition metadata of the `creation_date`-partitioned table. -/
  | repairChannelStatsPartitions
deriving DecidableEq

/-- Whether the statement drops a table. -/
def QueryKind.isDrop : QueryKind → Bool
  | .dropChannelStats => true
  | _ => false

/-- Externally visible side effects of the commit phase, in program order. -/
inductive Event where
  | uploadFile (key : List Char)
  | athenaQuery (q : QueryKind)
deriving DecidableEq

/-- Whether the event is a DROP TABLE statement. -/
def Event.isDropQuery : Event → Bool
  | .athenaQuery q => q.isDrop
  | _ => false

/-- Result of a completed flow: the normalized records written to the batch
file, the storage key of the upload, and the commit-phase event trace. -/
structure RunOut (ρ : Type) where
  records : List ρ
  key : List Char
  events : List Event
deriving DecidableEq

/-- The per-identifier loop body of `collect_video_snippets` (lines 147-177)
iterated over the downloaded id rows: threads `current_key` across
identifiers, aborts the whole run on a raised error, appends the normalized
items of each response, and counts the rows processed (`num_videos`). -/
def videoFetchAll (api : String → Nat → Outcome (List SnippetItem)) (numCreds : Nat)
    (now : Timestamp) :
    List String → Nat → Except FetchErr (List SnippetRecord × Nat × Nat)
  | [], k => .ok ([], k, 0)
  | id :: rest, k =>
    let fr := fetchLoopSnippet (api id) numCreds k
    match fr.result with
    | .error e => .error e
    | .ok items =>
      match videoFetchAll api numCreds now rest fr.finalKey with
      | .error e => .error e
      | .ok (recs, k2, c) => .ok (items.map (normalizeSnippet now) ++ recs, k2, c + 1)

/-- The per-identifier loop of `collect_channel_stats` (lines 213-242),
with the broken rotation of `channelFetchOnce`. -/
def channelFetchAll (api : String → Nat → Outcome (List ChannelItem)) (now : Timestamp) :
    List String → Nat → Except FetchErr (List ChannelRecord × Nat × Nat)
  | [], k => .ok ([], k, 0)
  | id :: rest, k =>
    let fr := channelFetchOnce (api id) k
    match fr.result with
    | .error e => .error e
    | .ok items =>
      match channelFetchAll api now rest fr.finalKey with
      | .error e => .error e
      | .ok (recs, k2, c) => .ok (items.map (normalizeChannel now) ++ recs, k2, c + 1)

/-- `collect_video_snippets` from the fetch loop onward (lines 143-188):
fetch and normalize every resolved identifier starting at `current_key = 0`,
then upload the batch under the key built from the date and `num_videos`, then
issue the create-if-absent table registration. -/
def videoRun (api : String → Nat → Outcome (List SnippetItem)) (numCreds : Nat)
    (now : Timestamp) (ids : List String) (d : List Char) :
    Except FetchErr (RunOut SnippetRecord) :=
  match videoFetchAll api numCreds now ids 0 with
  | .error e => .error e
  | .ok (recs, _, c) =>
    let key := videoKeyL d c
    .ok { records := recs, key := key
          events := [.uploadFile key, .athenaQuery .createVideoSnippetIfAbsent] }

/-- `collect_channel_stats` from the fetch loop onward (lines 202-256):
fetch and normalize every channel id starting at `current_key = 0`, upload the
batch under the partitioned key built from the date and `num_channels`, then
drop the table, recreate it, and repair its partitions, in that order. -/
def channelRun (api : String → Nat → Outcome (List ChannelItem)) (now : Timestamp)
    (ids : List String) (d : List Char) : Except FetchErr (RunOut ChannelRecord) :=
  match channelFetchAll api now ids 0 with
  | .error e => .error e
  | .ok (recs, _, c) =>
    let key := channelKeyL d c
    .ok { records := recs, key := key
          events := [.uploadFile key, .athenaQuery .dropChannelStats,
                     .athenaQuery .createChannelStatsIfAbsent,
                     .athenaQuery .repairChannelStatsPartitions] }

/-- Work-set resolution of `collect_video_snippets` (lines 124-133): the
query `SELECT_YOUTUBE_VIDEOS` selects the distinct video ids of the upstream
crawl, and if `athena.table_exists("youtube_video_snippet")` the clause
`TABLE_YOUTUBE_VIDEO_SNIPPET_EXISTS` (`... not in (select id from
youtube_video_snippet)`) is appended.  `upstream` is the list of video ids of
the youtube links of `validated_url` (duplicates possible), `persisted` the
ids already in the snippet table. -/
def videoWorkSet (upstream persisted : List String) (tableExists : Bool) : List String :=
  if tableExists then (upstream.filter (fun v => decide (v ∉ persisted))).dedup
  else upstream.dedup

/-- The count reported by `SELECT_COUNT_YOUTUBE_VIDEOS` (lines 125-131):
`count(distinct ...)` over the same WHERE clause, with the same `not in`
clause appended under the same `table_exists` condition. -/
def videoCountQ (upstream persisted : List String) (tableExists : Bool) : Nat :=
  if tableExists then ((upstream.filter (fun v => decide (v ∉ persisted))).dedup).length
  else upstream.dedup.length

/-- Work-set resolution of `collect_channel_stats` (line 194):
`SELECT_DISTINCT_CHANNEL` selects the distinct channel ids of the snippet
table; no table-existence check and no exclusion of channels already present
in `youtube_channel_stats`. -/
def channelWorkSet (upstream : List String) : List String := upstream.dedup

/-- The count reported by `SELECT_COUNT_DISTINCT_CHANNEL` (lines 195-199). -/
def channelCountQ (upstream : List String) : Nat := upstream.dedup.length

/-- Modelled from the spec (§4.3, §8): `resolve()` returns exactly `U \ P`
when the flow's persisted table exists and exactly `U` when it does not,
without duplicates.  Stated for comparison with the resolution the code
actually performs. -/
def specResolveWorkSet (u p : List String) (tableExists : Bool) : List String :=
  if tableExists then (u.filter (fun v => decide (v ∉ p))).dedup else u.dedup

/-- Character-pattern test: `'9'` in the pattern matches any decimal digit,
every other pattern character matches only itself; the lengths must agree. -/
def matchesPattern : List Char → List Char → Bool
  | [], [] => true
  | p :: ps, c :: cs => (if p = '9' then c.isDigit else p == c) && matchesPattern ps cs
  | _, _ => false

/-- The shape `YYYY-MM-DD HH:MM:SS.mmm` of a millisecond-precision timestamp. -/
def patTimestampMs : List Char := "9999-99-99 99:99:99.999".toList

/-- Numeric value of a decimal digit string (left inverse of `decDigits`). -/
def decValue (l : List Char) : Nat := l.foldl (fun a c => a * 10 + (c.toNat - 48)) 0

/-- End-to-end scenario of §8: the API yields one entity for `"a"` and `"b"`
and an empty entity list for `"c"`, with any credential. -/
def c2Api : String → Nat → Outcome (List SnippetItem) := fun id _ =>
  if id = "c" then .ok []
  else .ok [{ publishedAt := "2021-05-01T12:00:00Z".toList, payload := "p".toList }]

/-- The run date of the end-to-end scenario. -/
def c2Date : List Char := "2021-05-01".toList

/-- The retrieval instant of the end-to-end scenario. -/
def c2Now : Timestamp := ⟨2021, 5, 1, 12, 0, 0, 0⟩

/-- A credential pool whose first credential fails with a 403 quota error and
whose second succeeds (snippet flow). -/
def c3ApiV : Nat → Outcome (List SnippetItem) := fun i =>
  if i = 0 then .httpError "403 Forbidden".toList else .ok []

/-- The same pool behaviour for the channel flow. -/
def c3ApiC : Nat → Outcome (List ChannelItem) := fun i =>
  if i = 0 then .httpError "403 Forbidden".toList else .ok []

/-- An API on which every credential fails with a 403 quota error. -/
def c3All403 : Nat → Outcome (List SnippetItem) := fun _ =>
  .httpError "403 Forbidden".toList

/-- Channel flow inputs on which "u" yields one entity and "v" none. -/
def c1ApiC : String → Nat → Outcome (List ChannelItem) := fun id _ =>
  if id = "v" then .ok [] else .ok [{ payload := "q".toList }]

/-- The output of the video flow on the single identifier `"a"` under `c2Api`. -/
def c1VOut : RunOut SnippetRecord :=
  { records := [{ publishedAt := "2021-05-01 12:00:00".toList, payload := "p".toList,
                  retrieved_at := "2021-05-01 12:00:00.000".toList }]
    key := videoKeyL c2Date 1
    events := [.uploadFile (videoKeyL c2Date 1), .athenaQuery .createVideoSnippetIfAbsent] }

/-- The output of the channel flow on `["u", "v"]` under `c1ApiC`: one
normalized record, but the key counts the two identifiers processed. -/
def c1COut : RunOut ChannelRecord :=
  { records := [{ payload := "q".toList, retrieved_at := "2021-05-01 12:00:00.000".toList }]
    key := channelKeyL c2Date 2
    events := [.uploadFile (channelKeyL c2Date 2), .athenaQuery .dropChannelStats,
               .athenaQuery .createChannelStatsIfAbsent,
               .athenaQuery .repairChannelStatsPartitions] }

/-- An API whose every call raises a non-quota `HttpError` (snippet entities). -/
def c6ApiV : Nat → Outcome (List SnippetItem) := fun _ =>
  .httpError "404 Not Found".toList

/-- The same failure, per identifier, for the video flow. -/
def c6ApiVS : String → Nat → Outcome (List SnippetItem) := fun _ _ =>
  .httpError "404 Not Found".toList

/-- The same failure, per identifier, for the channel flow. -/
def c6ApiCS : String → Nat → Outcome (List ChannelItem) := fun _ _ =>
  .httpError "404 Not Found".toList

/-- An API that answers every identifier with an empty entity list (video). -/
def c8ApiV : String → Nat → Outcome (List SnippetItem) := fun _ _ => .ok []

/-- An API that answers every identifier with an empty entity list (channel). -/
def c8ApiC : String → Nat → Outcome (List ChannelItem) := fun _ _ => .ok []

/-! ## Helper lemmas -/

@[simp]
theorem digitChar_isDigit_mod (n : Nat) : (digitChar (n % 10)).isDigit = true := by
  have h : n % 10 < 10 := Nat.mod_lt _ (by decide)
  generalize n % 10 = k at h
  interval_cases k <;> decide

theorem toNat_digitChar (n : Nat) (h : n < 10) : (digitChar n).toNat = 48 + n := by
  interval_cases n <;> decide

theorem retrievedAt_matches (t : Timestamp) :
    matchesPattern patTimestampMs (formatRetrievedAt t) = true := by
  obtain ⟨y, mo, d, h, mi, s, us⟩ := t
  simp only [formatRetrievedAt, strftimeMicro, pyTruncLast3, pad4, pad2, pad6, patTimestampMs]
  simp [matchesPattern, List.take, String.toList]

theorem decDigitsAux_foldl (fuel : Nat) :
    ∀ n a, n < fuel →
      List.foldl (fun a c => a * 10 + (c.toNat - 48)) a (decDigitsAux fuel n) =
        a * 10 ^ (decDigitsAux fuel n).length + n := by
  induction fuel with
  | zero => intro n a h; omega
  | succ fuel ih =>
    intro n a h
    by_cases h10 : n < 10
    · simp [decDigitsAux, h10, toNat_digitChar n h10]
    · have hdiv : n / 10 < fuel := by
        have h1 : n / 10 < n := Nat.div_lt_self (by omega) (by omega)
        omega
      simp only [decDigitsAux, h10, if_false, List.foldl_append, List.length_append,
        List.foldl_cons, List.foldl_nil, List.length_cons, List.length_nil]
      rw [ih (n / 10) a hdiv]
      rw [toNat_digitChar (n % 10) (Nat.mod_lt _ (by decide))]
      have hmod : 48 + n % 10 - 48 = n % 10 := by omega
      rw [hmod, pow_succ]
      have := Nat.div_add_mod n 10
      ring_nf
      omega

theorem decValue_decDigits (n : Nat) : decValue (decDigits n) = n := by
  have h := decDigitsAux_foldl (n + 1) n 0 (Nat.lt_succ_self n)
  simpa [decValue, decDigits] using h

theorem decDigits_injective : Function.Injective decDigits := by
  intro m n h
  have := decValue_decDigits m
  rw [h, decValue_decDigits] at this
  omega

theorem videoKeyL_inj (d : List Char) {m n : Nat} (h : videoKeyL d m = videoKeyL d n) :
    m = n := by
  unfold videoKeyL at h
  have h1 := List.append_cancel_left h
  have h2 := List.append_cancel_left h1
  have h3 : decDigits m ++ ".json.bz2".toList = decDigits n ++ ".json.bz2".toList := by
    injection h2
  exact decDigits_injective (List.append_cancel_right h3)

theorem videoFetchAll_count (api : String → Nat → Outcome (List SnippetItem))
    (numCreds : Nat) (now : Timestamp) :
    ∀ (ids : List String) (k : Nat) recs k2 c,
      videoFetchAll api numCreds now ids k = .ok (recs, k2, c) → c = ids.length := by
  intro ids
  induction ids with
  | nil => intro k recs k2 c h; simp [videoFetchAll] at h; simp [h.2.2]
  | cons id rest ih =>
    intro k recs k2 c h
    simp only [videoFetchAll] at h
    split at h
    · exact absurd h (by simp)
    · split at h
      · exact absurd h (by simp)
      · rename_i recs' k2' c' heq
        simp only [Except.ok.injEq, Prod.mk.injEq] at h
        have := ih _ _ _ _ heq
        simp [← h.2.2, this]

theorem channelFetchAll_count (api : String → Nat → Outcome (List ChannelItem))
    (now : Timestamp) :
    ∀ (ids : List String) (k : Nat) recs k2 c,
      channelFetchAll api now ids k = .ok (recs, k2, c) → c = ids.length := by
  intro ids
  induction ids with
  | nil => intro k recs k2 c h; simp [channelFetchAll] at h; simp [h.2.2]
  | cons id rest ih =>
    intro k recs k2 c h
    simp only [channelFetchAll] at h
    split at h
    · exact absurd h (by simp)
    · split at h
      · exact absurd h (by simp)
      · rename_i recs' k2' c' heq
        simp only [Except.ok.injEq, Prod.mk.injEq] at h
        have := ih _ _ _ _ heq
        simp [← h.2.2, this]

theorem fetchFrom_calls {α : Type} (api : Nat → Outcome α) :
    ∀ (rem k : Nat), 1 ≤ rem → (fetchFrom api k rem).calls ≤ rem := by
  intro rem
  induction rem with
  | zero => intro k h; omega
  | succ rem ih =>
    intro k _
    unfold fetchFrom
    cases api k with
    | ok r => simp
    | httpError msg =>
      by_cases h403 : has403 msg
      · simp only [h403, if_true]
        by_cases hz : rem = 0
        · simp [hz]
        · have h1 : 1 ≤ rem := by omega
          have := ih (k + 1) h1
          simp only [hz, if_false]
          omega
      · simp [h403]

theorem channelKeyL_inj (d : List Char) {m n : Nat} (h : channelKeyL d m = channelKeyL d n) :
    m = n := by
  unfold channelKeyL at h
  have h1 := List.append_cancel_left h
  have h2 := List.append_cancel_left h1
  have h3 : decDigits m ++ ".json.bz2".toList = decDigits n ++ ".json.bz2".toList := by
    injection h2
  exact decDigits_injective (List.append_cancel_right h3)

theorem replT_eqZ (c : Char) : ((if c == 'T' then ' ' else c) == 'Z') = (c == 'Z') := by
  by_cases h : c = 'T'
  · subst h; decide
  · simp [h]

theorem dropWhile_self {α : Type} (p : α → Bool) (l : List α) :
    (l.dropWhile p).dropWhile p = l.dropWhile p := by
  induction l with
  | nil => rfl
  | cons a l ih =>
    by_cases h : p a = true
    · simp [List.dropWhile_cons, h, ih]
    · simp [List.dropWhile_cons, h]

theorem dropWhile_map_repl (l : List Char) :
    (l.map (fun c => if c == 'T' then ' ' else c)).dropWhile (fun c => c == 'Z') =
      (l.dropWhile (fun c => c == 'Z')).map (fun c => if c == 'T' then ' ' else c) := by
  induction l with
  | nil => rfl
  | cons a l ih =>
    simp only [List.map_cons, List.dropWhile_cons, replT_eqZ a]
    by_cases h : (a == 'Z') = true
    · rw [if_pos h, if_pos h]; exact ih
    · rw [if_neg h, if_neg h]; rfl

theorem pyReplace_T_idem (l : List Char) :
    pyReplace 'T' ' ' (pyReplace 'T' ' ' l) = pyReplace 'T' ' ' l := by
  simp only [pyReplace, List.map_map]
  apply List.map_congr_left
  intro a _
  by_cases h : a = 'T' <;> simp [h]

theorem pyRstrip_replace_comm (l : List Char) :
    pyRstrip 'Z' (pyReplace 'T' ' ' l) = pyReplace 'T' ' ' (pyRstrip 'Z' l) := by
  simp only [pyRstrip, pyReplace]
  rw [← List.map_reverse, dropWhile_map_repl, ← List.map_reverse]

theorem pyRstrip_Z_idem (l : List Char) :
    pyRstrip 'Z' (pyRstrip 'Z' l) = pyRstrip 'Z' l := by
  simp only [pyRstrip, List.reverse_reverse]
  rw [dropWhile_self]

/-! ## Claims -/

/-- C10: the `publishedAt` normalization of line 175 — strip trailing `'Z'`
characters, then replace every `'T'` with a space — is idempotent: applying
it twice yields the same result as applying it once. -/
theorem c10_normalizePublishedAt_idem (l : List Char) :
    normalizePublishedAt (normalizePublishedAt l) = normalizePublishedAt l := by
  unfold normalizePublishedAt
  rw [pyRstrip_replace_comm, pyRstrip_Z_idem, pyReplace_T_idem]

/-- C7: normalization rewrites `publishedAt` from `YYYY-MM-DDTHH:MM:SSZ` to
`YYYY-MM-DD HH:MM:SS` (in particular `2021-05-01T12:00:00Z` becomes
`2021-05-01 12:00:00`), and the `retrieved_at` field of every record of both
flows matches the pattern `YYYY-MM-DD HH:MM:SS.mmm`. -/
theorem c7_timestamp_normalization :
    normalizePublishedAt "2021-05-01T12:00:00Z".toList = "2021-05-01 12:00:00".toList
    ∧ (∀ (now : Timestamp) (it : SnippetItem),
        matchesPattern patTimestampMs (normalizeSnippet now it).retrieved_at = true)
    ∧ (∀ (now : Timestamp) (it : ChannelItem),
        matchesPattern patTimestampMs (normalizeChannel now it).retrieved_at = true) := by
  refine ⟨by decide, fun now it => ?_, fun now it => ?_⟩ <;>
    simpa [normalizeSnippet, normalizeChannel] using retrievedAt_matches now

/-- C4 (counterexample): the channel-stats flow does not resolve its work set
as `U \ P`.  With upstream channel set `["x"]`, a persisted channel-stats
table that exists and already contains `"x"`, the claim predicts the empty
work set, but the flow's query returns `["x"]`: line 194 selects every
distinct channel id of the snippet table, with no table-existence check and
no `not in` exclusion. -/
theorem c4_workset_counterexample :
    channelWorkSet ["x"] = ["x"] ∧ specResolveWorkSet ["x"] ["x"] true = [] := by
  decide

/-- C4 (amended): the video-snippet flow resolves exactly `U \ P` when its
table exists and exactly `U` when it does not, without duplicates, and its
reported count is computed with the same predicate; the channel-stats flow
always resolves the full distinct upstream channel set, regardless of any
persisted channel-stats state, also duplicate-free and with its count
computed by the same predicate. -/
theorem c4_workset_amended :
    (∀ (u p : List String) (v : String), v ∈ videoWorkSet u p true ↔ v ∈ u ∧ v ∉ p)
    ∧ (∀ (u p : List String) (v : String), v ∈ videoWorkSet u p false ↔ v ∈ u)
    ∧ (∀ (u p : List String) (b : Bool), (videoWorkSet u p b).Nodup)
    ∧ (∀ (u p : List String) (b : Bool), videoCountQ u p b = (videoWorkSet u p b).length)
    ∧ (∀ (u : List String) (v : String), v ∈ channelWorkSet u ↔ v ∈ u)
    ∧ (∀ u : List String, (channelWorkSet u).Nodup)
    ∧ (∀ u : List String, channelCountQ u = (channelWorkSet u).length) := by
  refine ⟨?_, ?_, ?_, ?_, ?_, ?_, ?_⟩
  · intro u p v; simp [videoWorkSet, List.mem_dedup, List.mem_filter]
  · intro u p v; simp [videoWorkSet, List.mem_dedup]
  · intro u p b; cases b <;> simp only [videoWorkSet, if_true, if_false, Bool.false_eq_true,
      reduceIte] <;> exact List.nodup_dedup _
  · intro u p b; cases b <;> rfl
  · intro u v; simp [channelWorkSet, List.mem_dedup]
  · intro u; exact List.nodup_dedup _
  · intro u; rfl

/-- C2 (counterexample): in the §8 end-to-end scenario — upstream identifiers
`["a", "b", "c"]`, one credential, one entity for `"a"` and `"b"`, empty
entity list for `"c"` — the video flow does write a batch of exactly 2
records, but uploads it under the key whose count component is 3
(`num_videos` counts identifiers processed, not records written), which
differs from the count-2 key the claim requires. -/
theorem c2_endToEnd_counterexample :
    (videoRun c2Api 1 c2Now ["a", "b", "c"] c2Date).map (fun o => (o.records.length, o.key)) =
      .ok (2, videoKeyL c2Date 3)
    ∧ videoKeyL c2Date 3 ≠ videoKeyL c2Date 2 := by
  decide

/-- C2 (amended): in the §8 end-to-end scenario the video flow writes a batch
of exactly 2 records, uploads it under the key whose count component is 3
(the number of identifiers processed), and afterwards issues the
create-table-if-absent registration exactly once. -/
theorem c2_endToEnd_amended :
    (videoRun c2Api 1 c2Now ["a", "b", "c"] c2Date).map
        (fun o => (o.records.length, o.key, o.events)) =
      .ok (2, videoKeyL c2Date 3,
           [.uploadFile (videoKeyL c2Date 3), .athenaQuery .createVideoSnippetIfAbsent]) := by
  decide

/-- C3: the video-snippet loop rotates as claimed — with 2 credentials of
which the first fails with a 403 quota error, it performs exactly 1 rotation
and returns the result for the same identifier (2 calls), and when all
credentials fail it re-raises the last 403 after the final rotation attempt
with no further calls — but the channel-stats loop does not: on its first
403 it evaluates `len(self.credentials['youtube'])` (line 229), which raises
`TypeError` on the credential list, aborting the run with zero successful
rotations. -/
theorem c3_rotation_channel_bug :
    fetchLoopSnippet c3ApiV 2 0 = { result := .ok [], finalKey := 1, calls := 2 }
    ∧ fetchLoopSnippet c3All403 2 0 =
        { result := .error (.httpError "403 Forbidden".toList), finalKey := 2, calls := 2 }
    ∧ channelFetchOnce c3ApiC 0 = { result := .error .typeError, finalKey := 1, calls := 1 } := by
  decide

/-- C1 (counterexample): a channel-stats run over the identifiers
`["u", "v"]` in which `"v"` yields an empty entity list commits a batch
containing exactly 1 normalized record, yet uploads it under the key whose
count component is 2 (the number of identifiers processed), which differs
from the count-1 key the claim requires. -/
theorem c1_commit_key_counterexample :
    (channelRun c1ApiC c2Now ["u", "v"] c2Date).map (fun o => (o.records.length, o.key)) =
      .ok (1, channelKeyL c2Date 2)
    ∧ channelKeyL c2Date 2 ≠ channelKeyL c2Date 1 := by
  decide

/-- C1 (amended): every completed run uploads under the flow's §6 key pattern
with the count component equal to the number of identifiers processed (which
equals the number of normalized records only when every identifier yields
exactly one entity), and for either flow two runs on the same date with
different identifier counts produce distinct, non-colliding keys. -/
theorem c1_commit_key_amended :
    (∀ api numCreds now ids d out,
        videoRun api numCreds now ids d = .ok out → out.key = videoKeyL d ids.length)
    ∧ (∀ api now ids d out,
        channelRun api now ids d = .ok out → out.key = channelKeyL d ids.length)
    ∧ (∀ (d : List Char) (m1 m2 : Nat), m1 ≠ m2 → videoKeyL d m1 ≠ videoKeyL d m2)
    ∧ (∀ (d : List Char) (m1 m2 : Nat), m1 ≠ m2 → channelKeyL d m1 ≠ channelKeyL d m2) := by
  refine ⟨?_, ?_, ?_, ?_⟩
  · intro api numCreds now ids d out h
    unfold videoRun at h
    split at h
    · exact absurd h (by simp)
    · rename_i recs k2 c heq
      simp only [Except.ok.injEq] at h
      rw [← h, videoFetchAll_count api numCreds now ids 0 recs k2 c heq]
  · intro api now ids d out h
    unfold channelRun at h
    split at h
    · exact absurd h (by simp)
    · rename_i recs k2 c heq
      simp only [Except.ok.injEq] at h
      rw [← h, channelFetchAll_count api now ids 0 recs k2 c heq]
  · intro d m1 m2 hne hkey; exact hne (videoKeyL_inj d hkey)
  · intro d m1 m2 hne hkey; exact hne (channelKeyL_inj d hkey)

/-- C1 (witness): concrete instances of the amended statement — a video run
over one identifier gets the count-1 key, a channel run over two identifiers
gets the count-2 key, and the count-1 and count-2 keys differ. -/
theorem c1_commit_key_amended_witness :
    (videoRun c2Api 1 c2Now ["a"] c2Date = .ok c1VOut)
    ∧ c1VOut.key = videoKeyL c2Date 1
    ∧ (channelRun c1ApiC c2Now ["u", "v"] c2Date = .ok c1COut)
    ∧ c1COut.key = channelKeyL c2Date 2
    ∧ videoKeyL c2Date 1 ≠ videoKeyL c2Date 2
    ∧ channelKeyL c2Date 1 ≠ channelKeyL c2Date 2 :=
  have h1 : videoRun c2Api 1 c2Now ["a"] c2Date = .ok c1VOut := by decide
  have h2 : channelRun c1ApiC c2Now ["u", "v"] c2Date = .ok c1COut := by decide
  ⟨h1, c1_commit_key_amended.1 c2Api 1 c2Now ["a"] c2Date c1VOut h1,
   h2, c1_commit_key_amended.2.1 c1ApiC c2Now ["u", "v"] c2Date c1COut h2,
   c1_commit_key_amended.2.2.1 c2Date 1 2 (by decide),
   c1_commit_key_amended.2.2.2 c2Date 1 2 (by decide)⟩

theorem fetchLoop_non403 {α : Type} (api : Nat → Outcome α) (numCreds k : Nat)
    (msg : List Char) (h : api k = .httpError msg) (h403 : has403 msg = false) :
    fetchLoopSnippet api numCreds k =
      { result := .error (.httpError msg), finalKey := k, calls := 1 } := by
  unfold fetchLoopSnippet fetchFrom
  rw [h]
  simp [h403]

theorem channelOnce_non403 {α : Type} (api : Nat → Outcome α) (k : Nat)
    (msg : List Char) (h : api k = .httpError msg) (h403 : has403 msg = false) :
    channelFetchOnce api k =
      { result := .error (.httpError msg), finalKey := k, calls := 1 } := by
  unfold channelFetchOnce
  rw [h]
  simp [h403]

/-- C5: the per-identifier retry loop of both flows is bounded and total:
entered with a valid current credential index, it ends either with a
successful result or with a raised error, and the number of external calls it
performs never exceeds the pool size. -/
theorem c5_loop_bounded :
    ∀ (α : Type) (api : Nat → Outcome α) (numCreds k : Nat), k < numCreds →
      (fetchLoopSnippet api numCreds k).calls ≤ numCreds
      ∧ ((∃ r, (fetchLoopSnippet api numCreds k).result = .ok r)
          ∨ (∃ e, (fetchLoopSnippet api numCreds k).result = .error e))
      ∧ (channelFetchOnce api k).calls ≤ numCreds
      ∧ ((∃ r, (channelFetchOnce api k).result = .ok r)
          ∨ (∃ e, (channelFetchOnce api k).result = .error e)) := by
  intro α api numCreds k hk
  have hcalls : (channelFetchOnce api k).calls = 1 := by
    unfold channelFetchOnce
    cases api k with
    | ok r => rfl
    | httpError msg => by_cases h : has403 msg <;> simp [h]
  refine ⟨?_, ?_, ?_, ?_⟩
  · have := fetchFrom_calls api (numCreds - k) k (by omega)
    unfold fetchLoopSnippet
    omega
  · cases h : (fetchLoopSnippet api numCreds k).result with
    | ok r => exact Or.inl ⟨r, rfl⟩
    | error e => exact Or.inr ⟨e, rfl⟩
  · omega
  · cases h : (channelFetchOnce api k).result with
    | ok r => exact Or.inl ⟨r, rfl⟩
    | error e => exact Or.inr ⟨e, rfl⟩

/-- C5 (witness): the bound and the result dichotomy at a concrete pool of
two credentials, the first of which is quota-exhausted. -/
theorem c5_loop_bounded_witness :
    (fetchLoopSnippet c3ApiV 2 0).calls ≤ 2
    ∧ ((∃ r, (fetchLoopSnippet c3ApiV 2 0).result = .ok r)
        ∨ (∃ e, (fetchLoopSnippet c3ApiV 2 0).result = .error e))
    ∧ (channelFetchOnce c3ApiV 0).calls ≤ 2
    ∧ ((∃ r, (channelFetchOnce c3ApiV 0).result = .ok r)
        ∨ (∃ e, (channelFetchOnce c3ApiV 0).result = .error e)) :=
  c5_loop_bounded (List SnippetItem) c3ApiV 2 0 (by decide)

/-- C6: an external-call failure outside the 403 class is re-raised unchanged
by the fetch loop of either flow — same error message, no credential
rotation, a single call, no retry — and it aborts the remainder of the run. -/
theorem c6_non403_fatal :
    (∀ (α : Type) (api : Nat → Outcome α) (numCreds k : Nat) (msg : List Char),
        api k = .httpError msg → has403 msg = false →
        fetchLoopSnippet api numCreds k =
          { result := .error (.httpError msg), finalKey := k, calls := 1 })
    ∧ (∀ (α : Type) (api : Nat → Outcome α) (k : Nat) (msg : List Char),
        api k = .httpError msg → has403 msg = false →
        channelFetchOnce api k =
          { result := .error (.httpError msg), finalKey := k, calls := 1 })
    ∧ (∀ api numCreds now (id : String) rest k msg,
        api id k = .httpError msg → has403 msg = false →
        videoFetchAll api numCreds now (id :: rest) k = .error (.httpError msg))
    ∧ (∀ api now (id : String) rest k msg,
        api id k = .httpError msg → has403 msg = false →
        channelFetchAll api now (id :: rest) k = .error (.httpError msg)) := by
  refine ⟨fun α api n k msg h h403 => fetchLoop_non403 api n k msg h h403,
          fun α api k msg h h403 => channelOnce_non403 api k msg h h403, ?_, ?_⟩
  · intro api numCreds now id rest k msg h h403
    simp only [videoFetchAll, fetchLoop_non403 (api id) numCreds k msg h h403]
  · intro api now id rest k msg h h403
    simp only [channelFetchAll, channelOnce_non403 (api id) k msg h h403]

/-- C6 (witness): the non-403 error `"404 Not Found"` is re-raised unchanged,
without rotation or retry, by both loops at concrete inputs, and aborts the
enclosing per-identifier iteration. -/
theorem c6_non403_fatal_witness :
    fetchLoopSnippet c6ApiV 2 0 =
      { result := .error (.httpError "404 Not Found".toList), finalKey := 0, calls := 1 }
    ∧ channelFetchOnce c6ApiV 0 =
      { result := .error (.httpError "404 Not Found".toList), finalKey := 0, calls := 1 }
    ∧ videoFetchAll c6ApiVS 2 c2Now ["a"] 0 = .error (.httpError "404 Not Found".toList)
    ∧ channelFetchAll c6ApiCS c2Now ["a"] 0 = .error (.httpError "404 Not Found".toList) :=
  ⟨c6_non403_fatal.1 (List SnippetItem) c6ApiV 2 0 "404 Not Found".toList rfl (by decide),
   c6_non403_fatal.2.1 (List SnippetItem) c6ApiV 0 "404 Not Found".toList rfl (by decide),
   c6_non403_fatal.2.2.1 c6ApiVS 2 c2Now "a" [] 0 "404 Not Found".toList rfl (by decide),
   c6_non403_fatal.2.2.2 c6ApiCS c2Now "a" [] 0 "404 Not Found".toList rfl (by decide)⟩

/-- C8: an identifier whose raw result carries an empty entity list
contributes zero records in either flow: the batch is unchanged, and the run
continues with the remaining identifiers (only the processed-identifier
counter advances) without error. -/
theorem c8_empty_result :
    (∀ api numCreds now (id : String) rest k,
        (fetchLoopSnippet (api id) numCreds k).result = .ok [] →
        videoFetchAll api numCreds now (id :: rest) k =
          Except.map (fun x => (x.1, x.2.1, x.2.2 + 1))
            (videoFetchAll api numCreds now rest
              (fetchLoopSnippet (api id) numCreds k).finalKey))
    ∧ (∀ api now (id : String) rest k,
        (channelFetchOnce (api id) k).result = .ok [] →
        channelFetchAll api now (id :: rest) k =
          Except.map (fun x => (x.1, x.2.1, x.2.2 + 1))
            (channelFetchAll api now rest (channelFetchOnce (api id) k).finalKey)) := by
  constructor
  · intro api numCreds now id rest k h
    simp only [videoFetchAll, h]
    cases videoFetchAll api numCreds now rest (fetchLoopSnippet (api id) numCreds k).finalKey with
    | error e => simp [Except.map]
    | ok trip => obtain ⟨recs, k2, c⟩ := trip; simp [Except.map]
  · intro api now id rest k h
    simp only [channelFetchAll, h]
    cases channelFetchAll api now rest (channelFetchOnce (api id) k).finalKey with
    | error e => simp [Except.map]
    | ok trip => obtain ⟨recs, k2, c⟩ := trip; simp [Except.map]

/-- C8 (witness): the empty-entity behaviour at a concrete input — one
identifier answered by an empty entity list, in each flow. -/
theorem c8_empty_result_witness :
    videoFetchAll c8ApiV 1 c2Now ["a"] 0 =
      Except.map (fun x => (x.1, x.2.1, x.2.2 + 1))
        (videoFetchAll c8ApiV 1 c2Now [] (fetchLoopSnippet (c8ApiV "a") 1 0).finalKey)
    ∧ channelFetchAll c8ApiC c2Now ["a"] 0 =
      Except.map (fun x => (x.1, x.2.1, x.2.2 + 1))
        (channelFetchAll c8ApiC c2Now [] (channelFetchOnce (c8ApiC "a") 0).finalKey) :=
  ⟨c8_empty_result.1 c8ApiV 1 c2Now "a" [] 0 (by decide),
   c8_empty_result.2 c8ApiC c2Now "a" [] 0 (by decide)⟩

/-- C9: after a successful upload the video flow issues exactly the
create-table-if-absent registration and performs no DROP TABLE at all, while
the channel flow issues DROP TABLE, then the CREATE of the
`creation_date`-partitioned table, then the MSCK partition-metadata repair,
in that order. -/
theorem c9_schema_registration :
    (∀ api numCreds now ids d out,
        videoRun api numCreds now ids d = .ok out →
        out.events = [.uploadFile out.key, .athenaQuery .createVideoSnippetIfAbsent]
        ∧ (∀ e ∈ out.events, e.isDropQuery = false))
    ∧ (∀ api now ids d out,
        channelRun api now ids d = .ok out →
        out.events = [.uploadFile out.key, .athenaQuery .dropChannelStats,
                      .athenaQuery .createChannelStatsIfAbsent,
                      .athenaQuery .repairChannelStatsPartitions]) := by
  constructor
  · intro api numCreds now ids d out h
    unfold videoRun at h
    split at h
    · exact absurd h (by simp)
    · simp only [Except.ok.injEq] at h
      subst h
      refine ⟨rfl, ?_⟩
      intro e he
      simp only [List.mem_cons, List.not_mem_nil, or_false] at he
      rcases he with he | he <;> subst he <;> rfl
  · intro api now ids d out h
    unfold channelRun at h
    split at h
    · exact absurd h (by simp)
    · simp only [Except.ok.injEq] at h
      subst h
      rfl

/-- C9 (witness): the commit-phase traces of a concrete successful video run
and a concrete successful channel run. -/
theorem c9_schema_registration_witness :
    c1VOut.events = [.uploadFile c1VOut.key, .athenaQuery .createVideoSnippetIfAbsent]
    ∧ (∀ e ∈ c1VOut.events, e.isDropQuery = false)
    ∧ c1COut.events = [.uploadFile c1COut.key, .athenaQuery .dropChannelStats,
                       .athenaQuery .createChannelStatsIfAbsent,
                       .athenaQuery .repairChannelStatsPartitions] :=
  have hv := c9_schema_registration.1 c2Api 1 c2Now ["a"] c2Date c1VOut (by decide)
  have hc := c9_schema_registration.2 c1ApiC c2Now ["u", "v"] c2Date c1COut (by decide)
  ⟨hv.1, hv.2, hc⟩
